import Mathlib

/-
  Verification of the wake-cycle scheduler of the TemperatureExperiment
  repository (ESP32 + BME280 + Supabase sketches).

  Sources embedded:
  - src/ESP32/save_temperature_humidity_supabase/save_temperature_humidity_supabase.ino
    (epoch-aligned mode, called mode A below)
  - src/unnamed/part_000
    (phase-aligned mode with drift compensation, called mode B below)

  Modelling conventions:
  - time_t values are modelled as Nat: every claim restricts attention to
    nonnegative epoch times, where C integer division and remainder agree
    with Nat division and remainder.
  - The timezone rule WET0WEST shifts local time by a whole number of
    hours, so the tm_min and tm_sec fields of localtime are
    now / 60 % 60 and now % 60 for any such offset.
  - Serial logging, WiFi and the HTTP transport are irrelevant to the
    claims and are abstracted into boolean and integer oracles in the
    cycle environments below.
  - The two float constants of mode B are modelled exactly: the float
    literal 1.0015f has the exact value 8401191 / 8388608 (rounding
    1.0015 to a 24-bit mantissa), and the comparison against the float
    literal 0.95f is equivalent, for the integer operands that occur, to
    the exact rational comparison; both equivalences are justified at the
    definitions below.
-/

namespace TemperatureExperiment

/- ===================== Mode A: epoch-aligned scheduler ===================== -/

/-- From nextHalfHourBoundary in the .ino file: with period = 1800,
    return ((now / period) + 1) * period. -/
def nextHalfHourBoundary (now : Nat) : Nat :=
  (now / 1800 + 1) * 1800

/-- From secondsUntilNextHalfHourBoundary in the .ino file:
    next := nextHalfHourBoundary now; if next <= now then next := now + 60
    (safety fallback); return next - now. -/
def secondsUntilNextHalfHourBoundary (now : Nat) : Nat :=
  (if nextHalfHourBoundary now ≤ now then now + 60 else nextHalfHourBoundary now) - now

/-- Duration programmed by deepSleepSeconds in the .ino file: the argument
    clamped below at 10 seconds (comment in source: avoid rapid wake loops). -/
def deepSleepSeconds (seconds : Nat) : Nat :=
  if seconds < 10 then 10 else seconds

/-- tm_min of localtime at epoch second now, for a timezone whose offset is a
    whole number of hours (such as WET0WEST): the minute field does not
    depend on the offset. -/
def localMinute (now : Nat) : Nat := now / 60 % 60

/-- From isMinuteSlot in the .ino file: tm_min of local time is 0 or 30. -/
def isMinuteSlot (now : Nat) : Bool :=
  localMinute now == 0 || localMinute now == 30

/-- Fallback applied in secondsUntilNextHalfHourSlot in the .ino file: if the
    mktime target is not strictly in the future, sleep 60 seconds instead. In
    the Nat model a delta of 0 encodes a non-future target. -/
def slotFallback (delta : Nat) : Nat := if delta = 0 then 60 else delta

/-- From secondsUntilNextHalfHourSlot in the .ino file (struct tm arithmetic
    through mktime), specialised to a fixed whole-hour timezone offset with no
    DST transition inside the interval: the target is second 0 of minute 30 of
    the current hour when tm_min < 30, otherwise second 0 of minute 0 of the
    next hour. -/
def secondsUntilNextHalfHourSlot (now : Nat) : Nat :=
  if localMinute now < 30 then
    slotFallback ((30 - localMinute now) * 60 - now % 60)
  else
    slotFallback ((60 - localMinute now) * 60 - now % 60)

/- ===================== HTTP POST (both files) ===================== -/

/-- Failure test applied to the HTTP status code in postToSupabase, identical
    in both files: code <= 0, or code different from all of 200, 201, 204. -/
def postFailLogged (code : Int) : Bool :=
  decide (code ≤ 0) || (decide (code ≠ 200) && decide (code ≠ 201) && decide (code ≠ 204))

/-- Return value of postToSupabase: -1 when http.begin fails, otherwise the
    status code of the POST, handed back to the caller unchanged. -/
def postToSupabase (beginOk : Bool) (code : Int) : Int :=
  if beginOk then code else -1

/- ===================== Time reading (mode B and mode A) ===================== -/

/-- Bounded polling loop shared by the time-reading code: attempt index i,
    remaining attempts fuel; returns true as soon as one attempt succeeds and
    false when the attempts are exhausted. -/
def pollAux (ok : Nat → Bool) : Nat → Nat → Bool
  | _, 0 => false
  | i, fuel + 1 => if ok i then true else pollAux ok (i + 1) fuel

/-- From syncTime in the .ino file: up to 40 reads of time(), 250 ms apart,
    accepting the first read strictly above the sanity threshold 1700000000.
    The oracle r gives the value of the i-th read. -/
def syncTime (r : Nat → Nat) : Bool :=
  pollAux (fun i => decide (1700000000 < r i)) 0 40

/-- From getLocalTime in part_000: reads time() every 10 ms while
    millis() - start <= ms, accepting the first read whose tm_year exceeds
    116 (year 2016); hence ms / 10 + 1 attempts. The oracle year gives the
    tm_year of the i-th read. -/
def getLocalTime (year : Nat → Nat) (ms : Nat) : Bool :=
  pollAux (fun i => decide (116 < year i)) 0 (ms / 10 + 1)

/-- From printLocalTime in part_000: the retry loop body returns false on its
    first iteration, so the result is exactly the result of one getLocalTime
    call (whose own bounded loop does the retrying). -/
def printLocalTime (year : Nat → Nat) (ms : Nat) : Bool :=
  getLocalTime year ms

/- ===================== Mode B: phase-aligned scheduler ===================== -/

/-- SLEEP_DURATION in part_000 (minutes). -/
def SLEEP_DURATION : Nat := 30

/-- WAKE_TIME in part_000 (reference hour). -/
def WAKE_TIME : Nat := 6

/-- curHour in beginDeepSleep: (tm_hour - WAKE_TIME + 24) % 24, written
    without subtraction below WAKE_TIME so that it is total on Nat; the two
    agree for 0 <= h < 24. -/
def curHour (h : Nat) : Nat := (h + 24 - WAKE_TIME) % 24

/-- curMinute in beginDeepSleep: curHour * 60 + tm_min. -/
def curMinute (h m : Nat) : Nat := curHour h * 60 + m

/-- curSecond in beginDeepSleep: curHour * 3600 + tm_min * 60 + tm_sec. -/
def curSecond (h m s : Nat) : Nat := curHour h * 3600 + m * 60 + s

/-- desiredSleepSeconds in beginDeepSleep: SLEEP_DURATION * 60. -/
def desiredSleepSeconds : Nat := SLEEP_DURATION * 60

/-- offsetMinutes in beginDeepSleep: curMinute % SLEEP_DURATION. -/
def offsetMinutes (h m : Nat) : Nat := curMinute h m % SLEEP_DURATION

/-- offsetSeconds in beginDeepSleep: curSecond % desiredSleepSeconds. -/
def offsetSeconds (h m s : Nat) : Nat := curSecond h m s % desiredSleepSeconds

/-- Skip-ahead test in beginDeepSleep:
    desiredSleepSeconds - offsetSeconds < 120, or
    offsetSeconds / (float)desiredSleepSeconds > 0.95f.
    The float comparison is modelled by the exact rational comparison
    offsetSeconds * 10000 > 9500 * desiredSleepSeconds. The two agree for
    every integer offsetSeconds: with desiredSleepSeconds = 1800 the exact
    quotient crosses 0.95 at offsetSeconds = 1710, where the rounded float
    quotient equals the rounded float literal 0.95f (both are the nearest
    binary32 value to 0.95), so the strict comparison is false there, and for
    every other operand the quotient is at least 5e-4 away from 0.95, far
    beyond the rounding error of one binary32 division. -/
def skipAhead (h m s : Nat) : Bool :=
  decide (desiredSleepSeconds - offsetSeconds h m s < 120) ||
  decide (offsetSeconds h m s * 10000 > 9500 * desiredSleepSeconds)

/-- sleepMinutes in beginDeepSleep: SLEEP_DURATION - offsetMinutes, plus one
    extra SLEEP_DURATION when the skip-ahead test fires. -/
def sleepMinutes (h m s : Nat) : Nat :=
  (SLEEP_DURATION - offsetMinutes h m) + (if skipAhead h m s then SLEEP_DURATION else 0)

/-- sleepDuration before drift compensation: sleepMinutes * 60 - tm_sec
    (a uint64 in the source; sleepMinutes >= 1 and tm_sec <= 59 keep it
    positive, so Nat subtraction is exact). -/
def sleepDurationRaw (h m s : Nat) : Nat :=
  sleepMinutes h m s * 60 - s

/-- Final sleepDuration in beginDeepSleep: add the 3 second epsilon, then
    multiply by the float literal 1.0015f and truncate back to uint64. The
    float 1.0015f equals 8401191 / 8388608 exactly, and the product is
    modelled as the exact rational product truncated to an integer; the
    binary32 product itself can differ from the exact product by at most one
    unit in the last place, which the claims, proved as inequalities with at
    least 3 seconds of slack, tolerate. -/
def sleepDuration (h m s : Nat) : Nat :=
  ((sleepDurationRaw h m s + 3) * 8401191) / 8388608

/-- Modelled from the spec: the next true phase-aligned boundary, the
    smallest multiple of the period strictly greater than the current
    position curSecond within the reference-anchored day. -/
def nextTrueBoundary (h m s : Nat) : Nat :=
  (curSecond h m s / desiredSleepSeconds + 1) * desiredSleepSeconds

/-- Modelled from the spec: the skip-ahead condition as the spec words it,
    elapsed fraction of the current period at least 0.95 (in exact rational
    arithmetic), or remaining time to the naive boundary less than 120
    seconds. The remaining time desiredSleepSeconds - offsetSeconds equals
    the naive sleepMinutes * 60 - tm_sec. -/
def specSkipCondition (h m s : Nat) : Prop :=
  9500 * desiredSleepSeconds ≤ offsetSeconds h m s * 10000 ∨
  desiredSleepSeconds - offsetSeconds h m s < 120

/- ===================== Wake-cycle pipelines ===================== -/

/-- CycleOutcome of the spec data model, plus SlotSkip for the mode A path
    that skips the sensor when the minute is not an allowed slot (that path
    is not a failure and has no spec outcome tag of its own). -/
inductive CycleOutcome where
  | NetworkFailure : CycleOutcome
  | TimeSyncFailure : CycleOutcome
  | SlotSkip : CycleOutcome
  | SensorFailure : CycleOutcome
  | TransmitFailure : Int → CycleOutcome
  | Success : CycleOutcome
deriving DecidableEq

/-- Environment oracle for one mode A wake cycle: WiFi result, NTP result,
    the time() read after sync (t1, used for the slot check and the slot-skip
    sleep), BME init result, the time() read on the BME failure path (t2),
    the HTTP status code, and the time() read before the final sleep (t3). -/
structure EnvA where
  wifiOk : Bool
  ntpOk : Bool
  t1 : Nat
  bmeOk : Bool
  t2 : Nat
  postCode : Int
  t3 : Nat

/-- Observable result of one wake cycle: outcome tag, the programmed sleep
    duration, whether the sensor power pin was ever driven high, whether it
    is still high when the device suspends, whether sensor init was
    attempted, and whether the sensor was actually read. -/
structure CycleResult where
  outcome : CycleOutcome
  sleepSeconds : Nat
  pinEverHigh : Bool
  pinHighAtSleep : Bool
  sensorInitTried : Bool
  sensorReadDone : Bool

/-- setup() of the .ino file as a pipeline on the cycle environment. Every
    branch ends in one deepSleepSeconds call. initBME drives the power pin
    high before bme.begin, and only powerDownBME (called between the read and
    the POST) drives it low; the BME failure branch suspends without calling
    powerDownBME. -/
def cycleA (e : EnvA) : CycleResult :=
  if !e.wifiOk then
    ⟨CycleOutcome.NetworkFailure, deepSleepSeconds 60, false, false, false, false⟩
  else if !e.ntpOk then
    ⟨CycleOutcome.TimeSyncFailure, deepSleepSeconds 60, false, false, false, false⟩
  else if !isMinuteSlot e.t1 then
    ⟨CycleOutcome.SlotSkip, deepSleepSeconds (secondsUntilNextHalfHourBoundary e.t1),
      false, false, false, false⟩
  else if !e.bmeOk then
    ⟨CycleOutcome.SensorFailure, deepSleepSeconds (secondsUntilNextHalfHourSlot e.t2),
      true, true, true, false⟩
  else
    ⟨(if postFailLogged e.postCode then CycleOutcome.TransmitFailure e.postCode
        else CycleOutcome.Success),
      deepSleepSeconds (secondsUntilNextHalfHourBoundary e.t3),
      true, false, true, true⟩

/-- Environment oracle for one mode B wake cycle: WiFi result, SNTP result,
    BME init result, the HTTP status code, and the tm fields (hour, minute,
    second) that beginDeepSleep ends up using (freshly read, or stale when
    its own getLocalTime fails). -/
structure EnvB where
  wifiOk : Bool
  sntpOk : Bool
  bmeOk : Bool
  postCode : Int
  h : Nat
  m : Nat
  s : Nat

/-- setup() of part_000 as a pipeline on the cycle environment. Every branch,
    including the WiFi and SNTP failure branches, ends in one beginDeepSleep
    call, which programs the Strategy B sleepDuration; the BME failure branch
    suspends without calling powerDownBME. -/
def cycleB (e : EnvB) : CycleResult :=
  if !e.wifiOk then
    ⟨CycleOutcome.NetworkFailure, sleepDuration e.h e.m e.s, false, false, false, false⟩
  else if !e.sntpOk then
    ⟨CycleOutcome.TimeSyncFailure, sleepDuration e.h e.m e.s, false, false, false, false⟩
  else if !e.bmeOk then
    ⟨CycleOutcome.SensorFailure, sleepDuration e.h e.m e.s, true, true, true, false⟩
  else
    ⟨(if postFailLogged e.postCode then CycleOutcome.TransmitFailure e.postCode
        else CycleOutcome.Success),
      sleepDuration e.h e.m e.s, true, false, true, true⟩

/- ===================== Helper lemmas ===================== -/

/-- Truncated multiplication by 8401191 / 8388608 never decreases a Nat. -/
lemma comp_factor_ge (x : Nat) : x ≤ x * 8401191 / 8388608 := by
  have h : x * 8388608 ≤ x * 8401191 := Nat.mul_le_mul_left x (by norm_num)
  exact (Nat.le_div_iff_mul_le (by norm_num)).2 h

/-- offsetSeconds unfolded to minute and second components. -/
lemma offsetSeconds_eq (h m s : Nat) (hs : s < 60) :
    offsetSeconds h m s = curMinute h m % 30 * 60 + s := by
  unfold offsetSeconds curSecond curMinute desiredSleepSeconds SLEEP_DURATION
  omega

/-- The period index of curSecond is the period index of curMinute. -/
lemma curSecond_div_eq (h m s : Nat) (hs : s < 60) :
    curSecond h m s / desiredSleepSeconds = curMinute h m / 30 := by
  unfold curSecond curMinute desiredSleepSeconds SLEEP_DURATION
  omega

/-- sleepMinutes is at least the naive phase remainder. -/
lemma sleepMinutes_ge (h m s : Nat) :
    30 - curMinute h m % 30 ≤ sleepMinutes h m s := by
  unfold sleepMinutes offsetMinutes SLEEP_DURATION
  split <;> omega

/-- The compensated duration dominates the raw duration plus the epsilon. -/
lemma sleepDuration_ge_raw (h m s : Nat) :
    sleepDurationRaw h m s + 3 ≤ sleepDuration h m s := by
  unfold sleepDuration
  exact comp_factor_ge _

/-- Mode B never programs a sleep below 60 seconds: without skip-ahead the
    raw duration is the remaining time to the boundary, at least 120 seconds;
    with skip-ahead a full extra period is added. -/
lemma sleepDuration_ge_min (h m s : Nat) (hs : s < 60) :
    60 ≤ sleepDuration h m s := by
  have hcomp := sleepDuration_ge_raw h m s
  have hoff := offsetSeconds_eq h m s hs
  have hmod : curMinute h m % 30 < 30 := Nat.mod_lt _ (by norm_num)
  have hraw : sleepDurationRaw h m s = sleepMinutes h m s * 60 - s := rfl
  cases hb : skipAhead h m s with
  | true =>
    have hsm : sleepMinutes h m s = (30 - curMinute h m % 30) + 30 := by
      unfold sleepMinutes offsetMinutes SLEEP_DURATION
      rw [hb]
      simp
    omega
  | false =>
    have hsm : sleepMinutes h m s = 30 - curMinute h m % 30 := by
      unfold sleepMinutes offsetMinutes SLEEP_DURATION
      rw [hb]
      simp
    have hcond : ¬ (desiredSleepSeconds - offsetSeconds h m s < 120) := by
      intro hlt
      have : skipAhead h m s = true := by
        unfold skipAhead
        simp [hlt]
      rw [hb] at this
      exact Bool.false_ne_true this
    unfold desiredSleepSeconds SLEEP_DURATION at hcond
    omega

/- ===================== Claims ===================== -/

/-- Claim C1: for every nonnegative epoch time now, the value computed by
    nextHalfHourBoundary is a multiple of the 1800 second period, is strictly
    greater than now, and is the smallest multiple of the period strictly
    greater than now. -/
theorem claim_C1 (now : Nat) :
    nextHalfHourBoundary now % 1800 = 0 ∧
    now < nextHalfHourBoundary now ∧
    ∀ k, k % 1800 = 0 → now < k → nextHalfHourBoundary now ≤ k := by
  unfold nextHalfHourBoundary
  refine ⟨by omega, by omega, fun k hk hlt => by omega⟩

/-- Witness for claim C1 at now = 100 and candidate multiple 3600. -/
theorem claim_C1_witness :
    (3600 : Nat) % 1800 = 0 ∧ nextHalfHourBoundary 100 ≤ 3600 :=
  ⟨by decide, (claim_C1 100).2.2 3600 (by decide) (by decide)⟩

/-- Claim C10: for every nonnegative epoch time now, the mode A sleep length
    lies between 1 and 1800 seconds, the boundary is strictly in the future,
    and the clock-anomaly fallback branch is never taken, so the result is
    exactly the distance to the next boundary. -/
theorem claim_C10 (now : Nat) :
    1 ≤ secondsUntilNextHalfHourBoundary now ∧
    secondsUntilNextHalfHourBoundary now ≤ 1800 ∧
    now < nextHalfHourBoundary now ∧
    secondsUntilNextHalfHourBoundary now = nextHalfHourBoundary now - now := by
  unfold secondsUntilNextHalfHourBoundary nextHalfHourBoundary
  have hno : ¬ ((now / 1800 + 1) * 1800 ≤ now) := by omega
  rw [if_neg hno]
  refine ⟨by omega, by omega, by omega, rfl⟩

/-- Claim C4, counterexample: at epoch 37790 (10:29:50), the boundary is 10
    seconds away, which is not below the 10 second clamp floor, so the
    programmed sleep is exactly 10 seconds rather than being raised by the
    clamp; this refutes the claim that 10 seconds is below the configured
    minimum and that the programmed sleep differs from 10 seconds. -/
theorem claim_C4_counterexample :
    secondsUntilNextHalfHourBoundary 37790 = 10 ∧
    10 ≤ secondsUntilNextHalfHourBoundary 37790 ∧
    deepSleepSeconds (secondsUntilNextHalfHourBoundary 37790) = 10 := by
  decide

/-- Claim C4 as amended: the clamp in deepSleepSeconds guarantees every
    programmed mode A duration is at least the configured minimum of 10
    seconds; in the 10:29:50 scenario the boundary distance of 10 seconds
    equals that minimum, so the programmed sleep is exactly 10 seconds; and
    mode B durations are never below 60 seconds. -/
theorem claim_C4_amended :
    (∀ s : Nat, 10 ≤ deepSleepSeconds s) ∧
    deepSleepSeconds (secondsUntilNextHalfHourBoundary 37790) = 10 ∧
    (∀ h m s : Nat, h < 24 → m < 60 → s < 60 → 60 ≤ sleepDuration h m s) := by
  refine ⟨fun s => ?_, by decide, fun h m s hh hm hs => sleepDuration_ge_min h m s hs⟩
  unfold deepSleepSeconds
  split <;> omega

/-- Witness for claim C4 at concrete inputs: the clamp floor at 0 and the
    mode B floor at wake time 03:00:00. -/
theorem claim_C4_witness :
    10 ≤ deepSleepSeconds 0 ∧ 60 ≤ sleepDuration 3 0 0 :=
  ⟨claim_C4_amended.1 0,
   claim_C4_amended.2.2 3 0 0 (by decide) (by decide) (by decide)⟩

/-- Claim C8: the HTTP status code is treated as success exactly when it is
    200, 201 or 204 (the failure test covers every other code, including
    nonpositive transport-failure codes), and postToSupabase returns the code
    unchanged to the caller (or -1 when http.begin fails before the POST). -/
theorem claim_C8 (code : Int) :
    (postFailLogged code = false ↔ (code = 200 ∨ code = 201 ∨ code = 204)) ∧
    postToSupabase true code = code ∧
    postToSupabase false code = -1 := by
  refine ⟨?_, rfl, rfl⟩
  unfold postFailLogged
  simp only [Bool.or_eq_false_iff, Bool.and_eq_false_iff, decide_eq_false_iff_not]
  omega

/-- Witness for claim C8 at the concrete codes 201 and 404. -/
theorem claim_C8_witness :
    postFailLogged 201 = false ∧ postToSupabase true 404 = 404 :=
  ⟨(claim_C8 201).1.2 (Or.inr (Or.inl rfl)), (claim_C8 404).2.1⟩

/-- Claim C2: for every wake time within a day, the mode B sleep duration
    (phase offset, skip-ahead, 3 second epsilon, drift compensation factor)
    is positive, and adding it to the current position within the
    reference-anchored day lands at or after the next true period boundary,
    never before. -/
theorem claim_C2 (h m s : Nat) (_hh : h < 24) (_hm : m < 60) (hs : s < 60) :
    0 < sleepDuration h m s ∧
    nextTrueBoundary h m s ≤ curSecond h m s + sleepDuration h m s := by
  have hcomp := sleepDuration_ge_raw h m s
  have hsm := sleepMinutes_ge h m s
  have hraw : sleepDurationRaw h m s = sleepMinutes h m s * 60 - s := rfl
  have hmod : curMinute h m % 30 < 30 := Nat.mod_lt _ (by norm_num)
  have hcs : curSecond h m s = curMinute h m * 60 + s := by
    unfold curSecond curMinute
    ring
  have hntb : nextTrueBoundary h m s = (curMinute h m / 30 + 1) * 1800 := by
    unfold nextTrueBoundary
    rw [curSecond_div_eq h m s hs]
    unfold desiredSleepSeconds SLEEP_DURATION
    norm_num
  refine ⟨by omega, by omega⟩

/-- Witness for claim C2 at wake time 06:01:00 (spec scenario 3). -/
theorem claim_C2_witness :
    (6 : Nat) < 24 ∧
    (0 < sleepDuration 6 1 0 ∧
      nextTrueBoundary 6 1 0 ≤ curSecond 6 1 0 + sleepDuration 6 1 0) :=
  ⟨by decide, claim_C2 6 1 0 (by decide) (by decide) (by decide)⟩

/-- Claim C3: the skip-ahead test of beginDeepSleep fires exactly when the
    elapsed fraction of the current period is at least 0.95 or the remaining
    time to the naive boundary is below 120 seconds; when it fires the chosen
    sleepMinutes is the naive remainder plus exactly one full period, and
    otherwise the naive remainder alone. -/
theorem claim_C3 (h m s : Nat) :
    (skipAhead h m s = true ↔ specSkipCondition h m s) ∧
    (specSkipCondition h m s →
      sleepMinutes h m s = (SLEEP_DURATION - offsetMinutes h m) + SLEEP_DURATION) ∧
    (¬ specSkipCondition h m s →
      sleepMinutes h m s = SLEEP_DURATION - offsetMinutes h m) := by
  have hiff : skipAhead h m s = true ↔ specSkipCondition h m s := by
    unfold skipAhead specSkipCondition desiredSleepSeconds SLEEP_DURATION
    simp only [Bool.or_eq_true, decide_eq_true_eq]
    omega
  refine ⟨hiff, fun hc => ?_, fun hc => ?_⟩
  · unfold sleepMinutes
    rw [if_pos (hiff.2 hc)]
  · unfold sleepMinutes
    rw [if_neg (fun hb => hc (hiff.1 hb)), Nat.add_zero]

/-- Witness for claim C3 at wake time 06:29:59, one second before a
    boundary: the skip-ahead condition holds and one full period is added. -/
theorem claim_C3_witness :
    specSkipCondition 6 29 59 ∧
    sleepMinutes 6 29 59 = (SLEEP_DURATION - offsetMinutes 6 29) + SLEEP_DURATION :=
  ⟨by unfold specSkipCondition desiredSleepSeconds SLEEP_DURATION; decide,
   (claim_C3 6 29 59).2.1
     (by unfold specSkipCondition desiredSleepSeconds SLEEP_DURATION; decide)⟩

/-- A polling loop that returns false saw only failing attempts. -/
lemma pollAux_false_all (ok : Nat → Bool) :
    ∀ fuel i, pollAux ok i fuel = false → ∀ j, j < fuel → ok (i + j) = false := by
  intro fuel
  induction fuel with
  | zero => intro i _ j hj; omega
  | succ n ih =>
    intro i hfalse j hj
    cases hoki : ok i with
    | true => rw [pollAux, if_pos hoki] at hfalse; exact absurd hfalse (by simp)
    | false =>
      rw [pollAux, if_neg (by simp [hoki])] at hfalse
      cases j with
      | zero => simpa using hoki
      | succ k =>
        have := ih (i + 1) hfalse k (by omega)
        simpa [Nat.add_assoc, Nat.add_comm 1 k] using this

/-- A polling loop with one succeeding attempt in range returns true. -/
lemma pollAux_true_of (ok : Nat → Bool) :
    ∀ fuel i j, j < fuel → ok (i + j) = true → pollAux ok i fuel = true := by
  intro fuel
  induction fuel with
  | zero => intro i j hj; omega
  | succ n ih =>
    intro i j hj hok
    cases hoki : ok i with
    | true => rw [pollAux, if_pos hoki]
    | false =>
      rw [pollAux, if_neg (by simp [hoki])]
      cases j with
      | zero => rw [Nat.add_zero] at hok; exact absurd hok (by simp [hoki])
      | succ k =>
        exact ih (i + 1) k (by omega) (by simpa [Nat.add_assoc, Nat.add_comm 1 k] using hok)

/-- Claim C7: both time-reading loops reject clearly-invalid reads by
    retrying up to a bounded attempt count: syncTime reports failure only
    when all 40 reads are at or below the sanity epoch, and getLocalTime
    reports failure only when every read within its time budget has tm_year
    at or below 116; in particular a single invalid first read followed by a
    valid one never reports failure. -/
theorem claim_C7 (r year : Nat → Nat) (ms : Nat) :
    (syncTime r = false → ∀ i, i < 40 → r i ≤ 1700000000) ∧
    (r 0 ≤ 1700000000 → 1700000000 < r 1 → syncTime r = true) ∧
    (getLocalTime year ms = false → ∀ i, i ≤ ms / 10 → year i ≤ 116) ∧
    (year 0 ≤ 116 → 116 < year 1 → 10 ≤ ms → getLocalTime year ms = true) := by
  refine ⟨fun hf i hi => ?_, fun h0 h1 => ?_, fun hf i hi => ?_, fun h0 h1 hms => ?_⟩
  · have := pollAux_false_all _ 40 0 hf i hi
    simpa using this
  · exact pollAux_true_of _ 40 0 1 (by omega) (by simpa using h1)
  · have := pollAux_false_all _ (ms / 10 + 1) 0 hf i (by omega)
    simpa using this
  · exact pollAux_true_of _ (ms / 10 + 1) 0 1 (by omega) (by simpa using h1)

/-- Witness for claim C7: reads that are invalid on attempt 0 and valid on
    attempt 1 still yield success in both loops. -/
theorem claim_C7_witness :
    syncTime (fun i => 1700000001 * i) = true ∧
    getLocalTime (fun i => 117 * i) 5000 = true :=
  ⟨(claim_C7 (fun i => 1700000001 * i) (fun i => 117 * i) 5000).2.1
     (by norm_num) (by norm_num),
   (claim_C7 (fun i => 1700000001 * i) (fun i => 117 * i) 5000).2.2.2
     (by norm_num) (by norm_num) (by norm_num)⟩

/-- Claim C5, counterexample: in mode B (part_000) a cycle whose time sync
    fails does not enter a 60 second fallback sleep; with stale zeroed time
    fields the programmed fallback is the Strategy B duration of 1805
    seconds, strictly above 60. This refutes the claim that every wake cycle
    with failed time sync sleeps 60 seconds. -/
theorem claim_C5_counterexample :
    (cycleB ⟨true, false, true, 200, 0, 0, 0⟩).outcome = CycleOutcome.TimeSyncFailure ∧
    (cycleB ⟨true, false, true, 200, 0, 0, 0⟩).sleepSeconds = 1805 ∧
    60 < (cycleB ⟨true, false, true, 200, 0, 0, 0⟩).sleepSeconds ∧
    (cycleB ⟨true, false, true, 200, 0, 0, 0⟩).pinEverHigh = false := by
  decide

/-- Claim C5 as amended: when time synchronization never succeeds, the cycle
    outcome is TimeSyncFailure and the sensor power pin is never driven high
    before suspension in both modes; the fallback sleep is 60 seconds in mode
    A, while mode B falls back to the Strategy B computed duration instead. -/
theorem claim_C5_amended :
    (∀ e : EnvA, e.wifiOk = true → e.ntpOk = false →
      (cycleA e).outcome = CycleOutcome.TimeSyncFailure ∧
      (cycleA e).sleepSeconds = 60 ∧
      (cycleA e).pinEverHigh = false) ∧
    (∀ e : EnvB, e.wifiOk = true → e.sntpOk = false →
      (cycleB e).outcome = CycleOutcome.TimeSyncFailure ∧
      (cycleB e).sleepSeconds = sleepDuration e.h e.m e.s ∧
      (cycleB e).pinEverHigh = false) := by
  constructor
  · intro e h1 h2
    simp [cycleA, h1, h2, deepSleepSeconds]
  · intro e h1 h2
    simp [cycleB, h1, h2]

/-- Witness for claim C5 at concrete environments with failed sync. -/
theorem claim_C5_witness :
    (cycleA ⟨true, false, 5, true, 5, 200, 5⟩).sleepSeconds = 60 ∧
    (cycleB ⟨true, false, true, 204, 10, 0, 0⟩).outcome = CycleOutcome.TimeSyncFailure :=
  ⟨(claim_C5_amended.1 ⟨true, false, 5, true, 5, 200, 5⟩ rfl rfl).2.1,
   (claim_C5_amended.2 ⟨true, false, true, 204, 10, 0, 0⟩ rfl rfl).1⟩

/-- Claim C6, counterexample: when sensor initialization fails (in a cycle
    that reached the sensor stage), the power pin was driven high and is
    still high when the device suspends, in both modes; this refutes the
    claim that the pin is driven low again on every path where it was driven
    high. -/
theorem claim_C6_counterexample :
    (cycleA ⟨true, true, 1800, false, 1800, 200, 1800⟩).pinEverHigh = true ∧
    (cycleA ⟨true, true, 1800, false, 1800, 200, 1800⟩).pinHighAtSleep = true ∧
    (cycleB ⟨true, true, false, 200, 6, 0, 0⟩).pinHighAtSleep = true := by
  decide

/-- Claim C6 as amended: on every path where the sensor read happens, power
    is enabled immediately before the read and the pin is driven low again
    immediately after it, before the transmit, hence before suspension and
    regardless of the transmit outcome; on the sensor-initialization-failure
    path, however, the pin is driven high and remains high at suspension. -/
theorem claim_C6_amended :
    (∀ e : EnvA, e.wifiOk = true → e.ntpOk = true → isMinuteSlot e.t1 = true →
      e.bmeOk = true →
      (cycleA e).pinEverHigh = true ∧ (cycleA e).pinHighAtSleep = false ∧
      (cycleA e).sensorReadDone = true) ∧
    (∀ e : EnvA, e.wifiOk = true → e.ntpOk = true → isMinuteSlot e.t1 = true →
      e.bmeOk = false →
      (cycleA e).pinEverHigh = true ∧ (cycleA e).pinHighAtSleep = true) ∧
    (∀ e : EnvB, e.wifiOk = true → e.sntpOk = true → e.bmeOk = true →
      (cycleB e).pinEverHigh = true ∧ (cycleB e).pinHighAtSleep = false ∧
      (cycleB e).sensorReadDone = true) ∧
    (∀ e : EnvB, e.wifiOk = true → e.sntpOk = true → e.bmeOk = false →
      (cycleB e).pinEverHigh = true ∧ (cycleB e).pinHighAtSleep = true) := by
  refine ⟨fun e h1 h2 h3 h4 => ?_, fun e h1 h2 h3 h4 => ?_,
          fun e h1 h2 h3 => ?_, fun e h1 h2 h3 => ?_⟩
  · simp [cycleA, h1, h2, h3, h4]
  · simp [cycleA, h1, h2, h3, h4]
  · simp [cycleB, h1, h2, h3]
  · simp [cycleB, h1, h2, h3]

/-- Witness for claim C6: a mode A cycle at a slot minute with a failing
    POST (code 500) still releases the pin before suspension, and a mode A
    cycle with failed sensor init leaves it high. -/
theorem claim_C6_witness :
    (cycleA ⟨true, true, 1800, true, 1800, 500, 1800⟩).pinHighAtSleep = false ∧
    (cycleA ⟨true, true, 1800, false, 1800, 500, 1800⟩).pinHighAtSleep = true :=
  ⟨(claim_C6_amended.1 ⟨true, true, 1800, true, 1800, 500, 1800⟩ rfl rfl
      (by decide) rfl).2.1,
   (claim_C6_amended.2.1 ⟨true, true, 1800, false, 1800, 500, 1800⟩ rfl rfl
      (by decide) rfl).2⟩

/-- Claim C9: in mode A, after successful WiFi and time sync, a cycle whose
    current minute is not 0 or 30 goes straight to sleep scheduling with
    Strategy A (the epoch-aligned next half-hour boundary, clamped by the
    deep-sleep floor) without attempting sensor init, powering the sensor, or
    reading it; a cycle at minute 0 or 30 proceeds to the sensor stage. -/
theorem claim_C9 (e : EnvA) (h1 : e.wifiOk = true) (h2 : e.ntpOk = true) :
    (isMinuteSlot e.t1 = false →
      (cycleA e).outcome = CycleOutcome.SlotSkip ∧
      (cycleA e).sleepSeconds =
        deepSleepSeconds (secondsUntilNextHalfHourBoundary e.t1) ∧
      (cycleA e).pinEverHigh = false ∧
      (cycleA e).sensorInitTried = false ∧
      (cycleA e).sensorReadDone = false) ∧
    (isMinuteSlot e.t1 = true → (cycleA e).sensorInitTried = true) := by
  constructor
  · intro hslot
    simp [cycleA, h1, h2, hslot]
  · intro hslot
    cases hb : e.bmeOk <;> simp [cycleA, h1, h2, hslot, hb]

/-- Witness for claim C9: at epoch 60 the minute is 1, not a slot, and the
    cycle skips the sensor; at epoch 1800 the minute is 30 and the sensor
    stage is attempted. -/
theorem claim_C9_witness :
    (cycleA ⟨true, true, 60, true, 0, 200, 0⟩).sensorInitTried = false ∧
    (cycleA ⟨true, true, 1800, true, 0, 200, 0⟩).sensorInitTried = true :=
  ⟨((claim_C9 ⟨true, true, 60, true, 0, 200, 0⟩ rfl rfl).1 (by decide)).2.2.2.1,
   (claim_C9 ⟨true, true, 1800, true, 0, 200, 0⟩ rfl rfl).2 (by decide)⟩

end TemperatureExperiment
